import Mathlib

/-!
Shallow embedding of the `html2pdf` Go package (patipolchat/html2pdf,
file `html2pdf/html2pdf.go`), which converts HTML to PDF by driving a
Chrome browser through chromedp.

The repository's own logic is pure orchestration: option merging, file
reading, session creation, a fixed sequence of protocol commands, and
error wrapping.  The external collaborators (the chromedp client, the
Chrome browser reached through it, and the file system) are modelled as
an explicit environment `CdpEnv` / a read function, so each call of the
embedded functions is a pure function of (environment, inputs).

The embedding records, besides the Go return value `([]byte, error)`,
the ordered trace of protocol-level events the call performs and the
diagnostic messages delivered to the configured logging sink, so that
ordering and logging claims can be stated.  A separate outcome
constructor `hangs` models a call that never returns: the load-complete
wait in the source is `sync.WaitGroup.Wait()`, whose only `Done` path is
the `EventLoadEventFired` listener, so if that event is never delivered
the call blocks forever (`wg.Wait` does not observe the context's
cancellation channel).
-/

namespace Html2Pdf

/-- Go `error` values that occur in this package: the sentinel
`ErrHTMLFileNotFound`, a `fmt.Errorf("msg: %w", cause)` wrap, an error
surfaced by the chromedp client / protocol, and a context error
(`context.Canceled` / `DeadlineExceeded`). -/
inductive GoError where
  | errHTMLFileNotFound : GoError
  | wrapped : String → GoError → GoError
  | cdp : String → GoError
  | osErr : String → GoError
  | ctxCanceled : GoError
deriving DecidableEq, Repr

/-- The package-level sentinel `var ErrHTMLFileNotFound = fmt.Errorf("html file not found")`. -/
def ErrHTMLFileNotFound : GoError := GoError.errHTMLFileNotFound

/-- Identity of a logging sink value of Go type `func(string, ...interface{})`:
either the default `log.Printf` or some caller-supplied function.  Sinks only
receive diagnostic text; they do not influence the conversion, so their
identity is all the model needs. -/
inductive Sink where
  | defaultLog : Sink
  | custom : Nat → Sink
deriving DecidableEq, Repr

/-- The `options` struct: a single field `logger func(string, ...interface{})`;
`none` models a nil Go function value. -/
structure Options where
  logger : Option Sink
deriving DecidableEq, Repr

/-- The `Option` type of the package: `type Option func(*options)`.
(Named `ConvOption` here to avoid clashing with Lean's `Option`.) -/
def ConvOption := Options → Options

/-- `WithLogger` sets the logger field; a nil argument is stored as-is. -/
def WithLogger (logger : Option Sink) : ConvOption :=
  fun o => { o with logger := logger }

/-- `getDefaultOptions` returns `&options{logger: log.Printf}`. -/
def getDefaultOptions : Options := { logger := some Sink.defaultLog }

/-- The option-merge loop `for _, opt := range opts { opt(options) }`
applied to the defaults. -/
def applyOptions (opts : List ConvOption) : Options :=
  opts.foldl (fun o f => f o) getDefaultOptions

/-- Protocol-level events of one conversion call, in the order the code
performs them.  `printToPDF` carries the print-background parameter as it
is sent: `some b` means the code explicitly set it to `b` via
`WithPrintBackground`, `none` would mean the browser's own default is used. -/
inductive TraceEv where
  | navigate : String → TraceEv
  | listenRegistered : TraceEv
  | getFrameTree : TraceEv
  | setDocumentContent : Nat → String → TraceEv
  | loadObserved : TraceEv
  | waitCompleted : TraceEv
  | printToPDF : Option Bool → TraceEv
deriving DecidableEq, Repr

/-- Behaviour of the external collaborators (chromedp client, browser,
caller's context) during one conversion call.  Each field gives the
outcome of the corresponding external step; the code under test chooses
only in which order to consult them. -/
structure CdpEnv where
  /-- The caller's context is already cancelled/expired when `chromedp.Run`
  starts, so the run fails with the context's error before any protocol
  command is issued. -/
  ctxDoneAtStart : Bool
  /-- Result of `chromedp.Navigate("about:blank")`: `some e` is a failure. -/
  navigateErr : Option GoError
  /-- Result of `page.GetFrameTree().Do(ctx)`: root frame id on success. -/
  frameTree : Except GoError Nat
  /-- Result of `page.SetDocumentContent(frameID, html).Do(ctx)`. -/
  setContentErr : Nat → String → Option GoError
  /-- The caller's context is cancelled while the call is blocked in
  `wg.Wait()`.  The source's wait is `sync.WaitGroup.Wait`, which does not
  observe this signal; the field records the environment event so that the
  claim about it can be stated. -/
  ctxCancelledDuringWait : Bool
  /-- A `page.EventLoadEventFired` event is delivered to the registered
  listener after the content is set (cancellation of the context tears the
  event stream down, in which case no such event arrives). -/
  loadEventFires : Bool
  /-- Result of `page.PrintToPDF().WithPrintBackground(false).Do(ctx)`:
  the PDF bytes on success. -/
  printResult : Except GoError (List Nat)
  /-- Diagnostic text the chromedp session produces; it is routed to the
  configured sink (`chromedp.WithDebugf`), or dropped when the sink is nil. -/
  debugMessages : List String

/-- A Go return value of type `([]byte, error)`: a possibly-nil byte slice
together with a possibly-nil error. -/
structure GoReturn where
  bytes : Option (List Nat)
  err : Option GoError
deriving DecidableEq, Repr

/-- Outcome of a call: it returns a `([]byte, error)` pair, or it never
returns (blocked forever). -/
inductive Outcome where
  | ret : GoReturn → Outcome
  | hangs : Outcome
deriving DecidableEq, Repr

/-- Observable behaviour of one call: its outcome, the ordered protocol
trace it performed, and the diagnostic messages delivered to the sink. -/
structure ConvResult where
  outcome : Outcome
  trace : List TraceEv
  diag : List String
deriving Repr

/-- Outcome and trace of the `chromedp.Run` part of a call (everything
except diagnostics routing, which does not influence it). -/
structure RunOut where
  outcome : Outcome
  trace : List TraceEv
deriving Repr

/-- Message of the single error wrap in `ConvertHtmlToPdf`:
`fmt.Errorf("failed to convert HTML to PDF: %w", err)`. -/
def convMsg : String := "failed to convert HTML to PDF"

/-- Diagnostics delivered to the configured sink: a nil sink receives
nothing, any non-nil sink receives the session's diagnostic stream. -/
def deliveredDiagnostics (logger : Option Sink) (msgs : List String) : List String :=
  match logger with
  | none => []
  | some _ => msgs

/-- The `chromedp.Run(ctx, ...)` body of `ConvertHtmlToPdf`
(html2pdf.go lines 63-92), step by step in source order:
`Navigate("about:blank")`; then the first `ActionFunc`, which registers
the load listener (`chromedp.ListenTarget`, line 68), fetches the frame
tree (line 73), sets the document content (line 77), and blocks in
`wg.Wait()` (line 80) — the only `wg.Done` is in the load listener, so
the wait completes exactly when a load event is delivered and blocks
forever otherwise, regardless of the context; then the second
`ActionFunc`, which runs `page.PrintToPDF().WithPrintBackground(false)`.
Any error from `Run` is wrapped as
`fmt.Errorf("failed to convert HTML to PDF: %w", err)` and returned with
nil bytes; on success the buffer is returned with nil error. -/
def runConversion (env : CdpEnv) (htmlContent : String) : RunOut :=
  if env.ctxDoneAtStart then
    { outcome := Outcome.ret ⟨none, some (GoError.wrapped convMsg GoError.ctxCanceled)⟩,
      trace := [] }
  else
    match env.navigateErr with
    | some e =>
        { outcome := Outcome.ret ⟨none, some (GoError.wrapped convMsg e)⟩,
          trace := [TraceEv.navigate "about:blank"] }
    | none =>
      match env.frameTree with
      | Except.error e =>
          { outcome := Outcome.ret ⟨none, some (GoError.wrapped convMsg e)⟩,
            trace := [TraceEv.navigate "about:blank", TraceEv.listenRegistered,
                      TraceEv.getFrameTree] }
      | Except.ok fid =>
        match env.setContentErr fid htmlContent with
        | some e =>
            { outcome := Outcome.ret ⟨none, some (GoError.wrapped convMsg e)⟩,
              trace := [TraceEv.navigate "about:blank", TraceEv.listenRegistered,
                        TraceEv.getFrameTree, TraceEv.setDocumentContent fid htmlContent] }
        | none =>
          if env.loadEventFires then
            match env.printResult with
            | Except.error e =>
                { outcome := Outcome.ret ⟨none, some (GoError.wrapped convMsg e)⟩,
                  trace := [TraceEv.navigate "about:blank", TraceEv.listenRegistered,
                            TraceEv.getFrameTree, TraceEv.setDocumentContent fid htmlContent,
                            TraceEv.loadObserved, TraceEv.waitCompleted,
                            TraceEv.printToPDF (some false)] }
            | Except.ok buf =>
                { outcome := Outcome.ret ⟨some buf, none⟩,
                  trace := [TraceEv.navigate "about:blank", TraceEv.listenRegistered,
                            TraceEv.getFrameTree, TraceEv.setDocumentContent fid htmlContent,
                            TraceEv.loadObserved, TraceEv.waitCompleted,
                            TraceEv.printToPDF (some false)] }
          else
            { outcome := Outcome.hangs,
              trace := [TraceEv.navigate "about:blank", TraceEv.listenRegistered,
                        TraceEv.getFrameTree, TraceEv.setDocumentContent fid htmlContent] }

/-- `ConvertHtmlToPdf(ctx, htmlContent, opts...)` (html2pdf.go lines 53-93):
merge the options over the defaults, create the chromedp context with the
configured sink as debug function (`chromedp.WithDebugf(options.logger)`,
line 59 — this is the only place the options are consulted), run the
conversion, and wrap any error. -/
def ConvertHtmlToPdf (env : CdpEnv) (htmlContent : String) (opts : List ConvOption) :
    ConvResult :=
  let options := applyOptions opts
  let r := runConversion env htmlContent
  { outcome := r.outcome, trace := r.trace,
    diag := deliveredDiagnostics options.logger env.debugMessages }

/-- Result of `os.ReadFile(fileName)`: the contents, an error with
`os.IsNotExist(err)` true, or some other read error. -/
inductive ReadResult where
  | ok : String → ReadResult
  | notExist : ReadResult
  | otherErr : GoError → ReadResult
deriving DecidableEq, Repr

/-- `ConvertHtmlFileToPdf(ctx, fileName, opts...)` (html2pdf.go lines 41-50):
read the file; on `os.IsNotExist` return `ErrHTMLFileNotFound`; on any other
read error return `fmt.Errorf("failed to read file %s: %w", fileName, err)`;
on success delegate to `ConvertHtmlToPdf` with the file's text and the same
options.  On either read failure no chromedp context is created, so the
protocol trace and the diagnostic output are empty. -/
def ConvertHtmlFileToPdf (fs : String → ReadResult) (env : CdpEnv)
    (fileName : String) (opts : List ConvOption) : ConvResult :=
  match fs fileName with
  | ReadResult.notExist =>
      { outcome := Outcome.ret ⟨none, some ErrHTMLFileNotFound⟩, trace := [], diag := [] }
  | ReadResult.otherErr e =>
      { outcome := Outcome.ret ⟨none,
          some (GoError.wrapped ("failed to read file " ++ fileName) e)⟩,
        trace := [], diag := [] }
  | ReadResult.ok content => ConvertHtmlToPdf env content opts

/-- Recognizer for the content-set protocol command in a trace. -/
def isSetContent : TraceEv → Bool
  | TraceEv.navigate _ => false
  | TraceEv.listenRegistered => false
  | TraceEv.getFrameTree => false
  | TraceEv.setDocumentContent _ _ => true
  | TraceEv.loadObserved => false
  | TraceEv.waitCompleted => false
  | TraceEv.printToPDF _ => false

/-- Recognizer for the listener-registration event in a trace. -/
def isListenRegistered : TraceEv → Bool
  | TraceEv.navigate _ => false
  | TraceEv.listenRegistered => true
  | TraceEv.getFrameTree => false
  | TraceEv.setDocumentContent _ _ => false
  | TraceEv.loadObserved => false
  | TraceEv.waitCompleted => false
  | TraceEv.printToPDF _ => false

/-- Recognizer for the observed load-complete event in a trace. -/
def isLoadObserved : TraceEv → Bool
  | TraceEv.navigate _ => false
  | TraceEv.listenRegistered => false
  | TraceEv.getFrameTree => false
  | TraceEv.setDocumentContent _ _ => false
  | TraceEv.loadObserved => true
  | TraceEv.waitCompleted => false
  | TraceEv.printToPDF _ => false

/-- Recognizer for the completion of the blocking wait in a trace. -/
def isWaitCompleted : TraceEv → Bool
  | TraceEv.navigate _ => false
  | TraceEv.listenRegistered => false
  | TraceEv.getFrameTree => false
  | TraceEv.setDocumentContent _ _ => false
  | TraceEv.loadObserved => false
  | TraceEv.waitCompleted => true
  | TraceEv.printToPDF _ => false

/-- Recognizer for the print-to-PDF protocol command in a trace. -/
def isPrint : TraceEv → Bool
  | TraceEv.navigate _ => false
  | TraceEv.listenRegistered => false
  | TraceEv.getFrameTree => false
  | TraceEv.setDocumentContent _ _ => false
  | TraceEv.loadObserved => false
  | TraceEv.waitCompleted => false
  | TraceEv.printToPDF _ => true

/-- Recognizer for the navigation command in a trace. -/
def isNavigate : TraceEv → Bool
  | TraceEv.navigate _ => true
  | TraceEv.listenRegistered => false
  | TraceEv.getFrameTree => false
  | TraceEv.setDocumentContent _ _ => false
  | TraceEv.loadObserved => false
  | TraceEv.waitCompleted => false
  | TraceEv.printToPDF _ => false

/-- Recognizer for the frame-tree fetch command in a trace. -/
def isGetFrameTree : TraceEv → Bool
  | TraceEv.navigate _ => false
  | TraceEv.listenRegistered => false
  | TraceEv.getFrameTree => true
  | TraceEv.setDocumentContent _ _ => false
  | TraceEv.loadObserved => false
  | TraceEv.waitCompleted => false
  | TraceEv.printToPDF _ => false

/-- Index of the first event satisfying `p` in a trace, if any. -/
def idxOf (p : TraceEv → Bool) : List TraceEv → Option Nat
  | [] => none
  | e :: t => if p e then some 0 else (idxOf p t).map (· + 1)

/-- Number of events satisfying `p` in a trace. -/
def countEv (p : TraceEv → Bool) : List TraceEv → Nat
  | [] => 0
  | e :: t => (if p e then 1 else 0) + countEv p t

/-- Concrete non-empty PDF output, the bytes of `"%PDF-1."`. -/
def pdfBytesOk : List Nat := [37, 80, 68, 70, 45, 49, 46]

/-- A fully successful environment: live context, every protocol command
succeeds, the load event is delivered, and printing yields `pdfBytesOk`. -/
def envOk : CdpEnv :=
  { ctxDoneAtStart := false
    navigateErr := none
    frameTree := Except.ok 1
    setContentErr := fun _ _ => none
    ctxCancelledDuringWait := false
    loadEventFires := true
    printResult := Except.ok pdfBytesOk
    debugMessages := ["CDP message"] }

/-- Environment in which the caller's context is cancelled while the call is
blocked waiting for the load event; the cancellation tears the event stream
down, so the load event is never delivered. -/
def envCancelledMidWait : CdpEnv :=
  { envOk with ctxCancelledDuringWait := true, loadEventFires := false }

/-- Environment whose only failing external step is the content-set command. -/
def envSetContentFails : CdpEnv :=
  { envOk with setContentErr := fun _ _ => some (GoError.cdp "boom") }

/-- Environment whose only failing external step is the print-to-PDF command. -/
def envPrintFails : CdpEnv :=
  { envOk with printResult := Except.error (GoError.cdp "boom") }

/-- File system on which every path is missing (`os.IsNotExist`). -/
def fsMissing : String → ReadResult := fun _ => ReadResult.notExist

/-- File system on which every read fails with a non-missing error. -/
def fsDenied : String → ReadResult :=
  fun _ => ReadResult.otherErr (GoError.osErr "permission denied")

/-- File system on which every path holds a fixed HTML document. -/
def fsContent : String → ReadResult := fun _ => ReadResult.ok "<p>hi</p>"

/-- Bridge: the outcome of a conversion is that of its `chromedp.Run` part. -/
theorem convert_outcome_eq (env : CdpEnv) (html : String) (opts : List ConvOption) :
    (ConvertHtmlToPdf env html opts).outcome = (runConversion env html).outcome := rfl

/-- Bridge: the trace of a conversion is that of its `chromedp.Run` part. -/
theorem convert_trace_eq (env : CdpEnv) (html : String) (opts : List ConvOption) :
    (ConvertHtmlToPdf env html opts).trace = (runConversion env html).trace := rfl

/-- Case analysis on the outcome of a run: it is a nil-bytes return carrying
the uniform wrap of some cause, a successful return of exactly the bytes the
print command produced with nil error, or a hang. -/
theorem runConversion_outcome_cases (env : CdpEnv) (html : String) :
    (∃ e, (runConversion env html).outcome =
        Outcome.ret ⟨none, some (GoError.wrapped convMsg e)⟩) ∨
    (∃ buf, env.printResult = Except.ok buf ∧
        (runConversion env html).outcome = Outcome.ret ⟨some buf, none⟩) ∨
    (runConversion env html).outcome = Outcome.hangs := by
  unfold runConversion
  split
  · exact Or.inl ⟨GoError.ctxCanceled, rfl⟩
  · split
    · next e _ => exact Or.inl ⟨e, rfl⟩
    · split
      · next e _ => exact Or.inl ⟨e, rfl⟩
      · next fid _ =>
        split
        · next e _ => exact Or.inl ⟨e, rfl⟩
        · split
          · split
            · next e _ => exact Or.inl ⟨e, rfl⟩
            · next buf hbuf => exact Or.inr (Or.inl ⟨buf, hbuf, rfl⟩)
          · exact Or.inr (Or.inr rfl)

/-- Case analysis on the trace of a run: it is one of the five prefixes of
the full command sequence that the code can perform. -/
theorem runConversion_trace_cases (env : CdpEnv) (html : String) :
    (runConversion env html).trace = [] ∨
    (runConversion env html).trace = [TraceEv.navigate "about:blank"] ∨
    (runConversion env html).trace =
      [TraceEv.navigate "about:blank", TraceEv.listenRegistered, TraceEv.getFrameTree] ∨
    (∃ fid, (runConversion env html).trace =
      [TraceEv.navigate "about:blank", TraceEv.listenRegistered, TraceEv.getFrameTree,
       TraceEv.setDocumentContent fid html]) ∨
    (∃ fid, (runConversion env html).trace =
      [TraceEv.navigate "about:blank", TraceEv.listenRegistered, TraceEv.getFrameTree,
       TraceEv.setDocumentContent fid html, TraceEv.loadObserved, TraceEv.waitCompleted,
       TraceEv.printToPDF (some false)]) := by
  unfold runConversion
  split
  · exact Or.inl rfl
  · split
    · exact Or.inr (Or.inl rfl)
    · split
      · exact Or.inr (Or.inr (Or.inl rfl))
      · next fid _ =>
        split
        · exact Or.inr (Or.inr (Or.inr (Or.inl ⟨fid, rfl⟩)))
        · split
          · split
            · exact Or.inr (Or.inr (Or.inr (Or.inr ⟨fid, rfl⟩)))
            · exact Or.inr (Or.inr (Or.inr (Or.inr ⟨fid, rfl⟩)))
          · exact Or.inr (Or.inr (Or.inr (Or.inl ⟨fid, rfl⟩)))

/-- C1: For every HTML input and every option list, whenever the call returns
(and the browser's successful print outputs are non-empty, as they always
are), `ConvertHtmlToPdf` returns exactly one of: non-empty bytes with nil
error, or a non-nil error with nil bytes — never non-empty bytes together
with an error, never a nil error together with no bytes. -/
theorem convert_return_shape (env : CdpEnv) (html : String) (opts : List ConvOption)
    (hret : (ConvertHtmlToPdf env html opts).outcome ≠ Outcome.hangs)
    (hpdf : ∀ b, env.printResult = Except.ok b → b ≠ []) :
    ∃ r, (ConvertHtmlToPdf env html opts).outcome = Outcome.ret r ∧
      ((∃ b, r.bytes = some b ∧ b ≠ [] ∧ r.err = none) ∨
       (∃ e, r.err = some e ∧ r.bytes = none)) := by
  rcases runConversion_outcome_cases env html with ⟨e, he⟩ | ⟨buf, hb, hbo⟩ | hh
  · exact ⟨_, by rw [convert_outcome_eq, he], Or.inr ⟨_, rfl, rfl⟩⟩
  · exact ⟨_, by rw [convert_outcome_eq, hbo], Or.inl ⟨buf, rfl, hpdf buf hb, rfl⟩⟩
  · exact absurd (by rw [convert_outcome_eq, hh]) hret

/-- Witness for C1 at the fully successful environment and empty HTML. -/
theorem convert_return_shape_witness :
    ∃ r, (ConvertHtmlToPdf envOk "" []).outcome = Outcome.ret r ∧
      ((∃ b, r.bytes = some b ∧ b ≠ [] ∧ r.err = none) ∨
       (∃ e, r.err = some e ∧ r.bytes = none)) :=
  convert_return_shape envOk "" [] (by decide) (by
    intro b hb
    have hb2 : Except.ok pdfBytesOk = Except.ok b := hb
    injection hb2 with h
    subst h
    decide)

/-- C2 (code bug): in the environment where the caller's context is cancelled
while the call is blocked waiting for the load event (so the event is never
delivered), the call does not return an error — it hangs, because the wait is
`sync.WaitGroup.Wait()` whose only `Done` path is the load listener; the
outcome is moreover identical whether or not the cancellation occurs, showing
the wait is not unblocked by the cancellation channel. -/
theorem cancellation_mid_wait_hangs :
    envCancelledMidWait.ctxCancelledDuringWait = true ∧
    (ConvertHtmlToPdf envCancelledMidWait "<html></html>" []).outcome = Outcome.hangs ∧
    (ConvertHtmlToPdf envCancelledMidWait "<html></html>" []).outcome =
      (ConvertHtmlToPdf { envCancelledMidWait with ctxCancelledDuringWait := false }
        "<html></html>" []).outcome :=
  ⟨rfl, rfl, rfl⟩

/-- C3: `ConvertHtmlFileToPdf` returns the sentinel `ErrHTMLFileNotFound` on a
missing path; on any other read failure it returns a wrap that carries the
path and the underlying cause, distinct from the sentinel; and conversion
failures (wraps of `convMsg`) are also distinct from the sentinel. -/
theorem file_errors_classified (fs : String → ReadResult) (env : CdpEnv)
    (p : String) (opts : List ConvOption) :
    (fs p = ReadResult.notExist →
      (ConvertHtmlFileToPdf fs env p opts).outcome =
        Outcome.ret ⟨none, some ErrHTMLFileNotFound⟩) ∧
    (∀ e, fs p = ReadResult.otherErr e →
      (ConvertHtmlFileToPdf fs env p opts).outcome =
        Outcome.ret ⟨none, some (GoError.wrapped ("failed to read file " ++ p) e)⟩ ∧
      GoError.wrapped ("failed to read file " ++ p) e ≠ ErrHTMLFileNotFound) ∧
    (∀ e, GoError.wrapped convMsg e ≠ ErrHTMLFileNotFound) := by
  refine ⟨fun h => ?_, fun e h => ⟨?_, fun hc => GoError.noConfusion hc⟩,
    fun e hc => GoError.noConfusion hc⟩
  · unfold ConvertHtmlFileToPdf
    rw [h]
  · unfold ConvertHtmlFileToPdf
    rw [h]

/-- Witness for C3: the missing-path branch and the denied-read branch at
concrete file systems. -/
theorem file_errors_classified_witness :
    (ConvertHtmlFileToPdf fsMissing envOk "a.html" []).outcome =
      Outcome.ret ⟨none, some ErrHTMLFileNotFound⟩ ∧
    (ConvertHtmlFileToPdf fsDenied envOk "a.html" []).outcome =
      Outcome.ret ⟨none, some (GoError.wrapped ("failed to read file " ++ "a.html")
        (GoError.osErr "permission denied"))⟩ :=
  ⟨(file_errors_classified fsMissing envOk "a.html" []).1 rfl,
   ((file_errors_classified fsDenied envOk "a.html" []).2.1 _ rfl).1⟩

/-- C4: on a successful read, `ConvertHtmlFileToPdf` is observably equal to
`ConvertHtmlToPdf` on the file's text with the identical option list: same
outcome, same trace, same diagnostics. -/
theorem file_delegates_to_content (fs : String → ReadResult) (env : CdpEnv)
    (p html : String) (opts : List ConvOption) (hread : fs p = ReadResult.ok html) :
    ConvertHtmlFileToPdf fs env p opts = ConvertHtmlToPdf env html opts := by
  unfold ConvertHtmlFileToPdf
  rw [hread]

/-- Witness for C4 at a concrete file system holding a fixed document. -/
theorem file_delegates_to_content_witness :
    ConvertHtmlFileToPdf fsContent envOk "a.html" [] =
      ConvertHtmlToPdf envOk "<p>hi</p>" [] :=
  file_delegates_to_content fsContent envOk "a.html" "<p>hi</p>" [] rfl

/-- C5: configuring a nil logging sink (via `WithLogger` with a nil function)
leaves the outcome and the protocol trace of the conversion unchanged and
suppresses all diagnostic output; it is never itself a cause of failure. -/
theorem nil_logger_suppresses_diagnostics_only (env : CdpEnv) (html : String)
    (opts : List ConvOption) :
    (ConvertHtmlToPdf env html (opts ++ [WithLogger none])).outcome =
      (ConvertHtmlToPdf env html opts).outcome ∧
    (ConvertHtmlToPdf env html (opts ++ [WithLogger none])).trace =
      (ConvertHtmlToPdf env html opts).trace ∧
    (ConvertHtmlToPdf env html (opts ++ [WithLogger none])).diag = [] := by
  refine ⟨rfl, rfl, ?_⟩
  show deliveredDiagnostics (applyOptions (opts ++ [WithLogger none])).logger
    env.debugMessages = []
  have h : (applyOptions (opts ++ [WithLogger none])).logger = none := by
    unfold applyOptions
    rw [List.foldl_append]
    rfl
  rw [h]
  rfl

/-- C6: in every execution, the load-event observer is registered strictly
before the content-set command is issued; the blocking wait completes only
after a load event has been observed; and the print command is issued only
after the wait has completed. -/
theorem observer_before_content_and_wait_before_print (env : CdpEnv) (html : String)
    (opts : List ConvOption) :
    (∀ i, idxOf isSetContent (ConvertHtmlToPdf env html opts).trace = some i →
      ∃ j, idxOf isListenRegistered (ConvertHtmlToPdf env html opts).trace = some j ∧
        j < i) ∧
    (∀ i, idxOf isWaitCompleted (ConvertHtmlToPdf env html opts).trace = some i →
      ∃ j, idxOf isLoadObserved (ConvertHtmlToPdf env html opts).trace = some j ∧
        j < i) ∧
    (∀ i, idxOf isPrint (ConvertHtmlToPdf env html opts).trace = some i →
      ∃ j, idxOf isWaitCompleted (ConvertHtmlToPdf env html opts).trace = some j ∧
        j < i) := by
  rw [convert_trace_eq]
  rcases runConversion_trace_cases env html with h | h | h | ⟨fid, h⟩ | ⟨fid, h⟩ <;> rw [h]
  · exact ⟨fun i hi => Option.noConfusion hi, fun i hi => Option.noConfusion hi,
      fun i hi => Option.noConfusion hi⟩
  · exact ⟨fun i hi => Option.noConfusion hi, fun i hi => Option.noConfusion hi,
      fun i hi => Option.noConfusion hi⟩
  · exact ⟨fun i hi => Option.noConfusion hi, fun i hi => Option.noConfusion hi,
      fun i hi => Option.noConfusion hi⟩
  · refine ⟨fun i hi => ?_, fun i hi => Option.noConfusion hi,
      fun i hi => Option.noConfusion hi⟩
    injection hi with hi'
    subst hi'
    exact ⟨1, rfl, by decide⟩
  · refine ⟨fun i hi => ?_, fun i hi => ?_, fun i hi => ?_⟩
    · injection hi with hi'
      subst hi'
      exact ⟨1, rfl, by decide⟩
    · injection hi with hi'
      subst hi'
      exact ⟨4, rfl, by decide⟩
    · injection hi with hi'
      subst hi'
      exact ⟨5, rfl, by decide⟩

/-- Witness for C6: at the successful environment the content-set command sits
at index 3 and the observer registration strictly before it. -/
theorem observer_before_content_witness :
    ∃ j, idxOf isListenRegistered (ConvertHtmlToPdf envOk "" []).trace = some j ∧ j < 3 :=
  (observer_before_content_and_wait_before_print envOk "" []).1 3 rfl

/-- C7 counterexample: a content-injection failure and a PDF-extraction
failure with the same underlying cause produce identical return values, so
the returned error does not identify which phase failed; the two
environments fail at different phases (in the first, printing would succeed;
in the second, content-set succeeds). -/
theorem phase_not_identifiable :
    envSetContentFails.printResult = Except.ok pdfBytesOk ∧
    envPrintFails.setContentErr 1 "<p>x</p>" = none ∧
    (ConvertHtmlToPdf envSetContentFails "<p>x</p>" []).outcome =
      (ConvertHtmlToPdf envPrintFails "<p>x</p>" []).outcome ∧
    (ConvertHtmlToPdf envSetContentFails "<p>x</p>" []).outcome =
      Outcome.ret ⟨none, some (GoError.wrapped convMsg (GoError.cdp "boom"))⟩ :=
  ⟨rfl, rfl, rfl, rfl⟩

/-- C7 (amended): every failure of `ConvertHtmlToPdf` is returned with nil
bytes and wrapped in the single uniform conversion-failure context
(`"failed to convert HTML to PDF"`) around the underlying cause — the
wrapper itself does not distinguish the phase — and no protocol command is
retried: each command appears at most once in the trace. -/
theorem error_uniform_wrap_nil_bytes_no_retry (env : CdpEnv) (html : String)
    (opts : List ConvOption) :
    (∀ r, (ConvertHtmlToPdf env html opts).outcome = Outcome.ret r → r.err ≠ none →
      r.bytes = none ∧ ∃ cause, r.err = some (GoError.wrapped convMsg cause)) ∧
    countEv isNavigate (ConvertHtmlToPdf env html opts).trace ≤ 1 ∧
    countEv isGetFrameTree (ConvertHtmlToPdf env html opts).trace ≤ 1 ∧
    countEv isSetContent (ConvertHtmlToPdf env html opts).trace ≤ 1 ∧
    countEv isPrint (ConvertHtmlToPdf env html opts).trace ≤ 1 := by
  refine ⟨fun r hr herr => ?_, ?_, ?_, ?_, ?_⟩
  · rw [convert_outcome_eq] at hr
    rcases runConversion_outcome_cases env html with ⟨e, he⟩ | ⟨buf, hb, hbo⟩ | hh
    · rw [he] at hr
      cases hr
      exact ⟨rfl, e, rfl⟩
    · rw [hbo] at hr
      cases hr
      exact absurd rfl herr
    · rw [hh] at hr
      exact Outcome.noConfusion hr
  all_goals
    rw [convert_trace_eq]
    rcases runConversion_trace_cases env html with h | h | h | ⟨fid, h⟩ | ⟨fid, h⟩ <;>
      rw [h] <;>
      simp [countEv, isNavigate, isGetFrameTree, isSetContent, isPrint]

/-- Witness for C7 at the environment whose print command fails. -/
theorem error_uniform_wrap_witness :
    (⟨none, some (GoError.wrapped convMsg (GoError.cdp "boom"))⟩ : GoReturn).bytes = none ∧
    ∃ cause, (⟨none, some (GoError.wrapped convMsg (GoError.cdp "boom"))⟩ : GoReturn).err =
      some (GoError.wrapped convMsg cause) :=
  (error_uniform_wrap_nil_bytes_no_retry envPrintFails "x" []).1 _ rfl (by decide)

/-- C8: every print-to-PDF command issued by `ConvertHtmlToPdf` carries the
print-background parameter explicitly set to `false` (never left to the
browser's own default). -/
theorem print_background_explicitly_false (env : CdpEnv) (html : String)
    (opts : List ConvOption) (pb : Option Bool)
    (h : TraceEv.printToPDF pb ∈ (ConvertHtmlToPdf env html opts).trace) :
    pb = some false := by
  rw [convert_trace_eq] at h
  rcases runConversion_trace_cases env html with hs | hs | hs | ⟨fid, hs⟩ | ⟨fid, hs⟩ <;>
    rw [hs] at h <;> simp at h
  exact h

/-- Witness for C8: the successful environment's trace contains the print
command with print-background explicitly false. -/
theorem print_background_explicitly_false_witness :
    TraceEv.printToPDF (some false) ∈ (ConvertHtmlToPdf envOk "" []).trace ∧
    (some false : Option Bool) = some false :=
  ⟨by decide, print_background_explicitly_false envOk "" [] (some false) (by decide)⟩

/-- C9: the empty HTML string is never rejected by the library's own logic:
in any environment where the external steps succeed and the load event is
delivered, the conversion of `""` returns the (non-empty) printed bytes with
nil error. -/
theorem empty_html_not_rejected (env : CdpEnv) (opts : List ConvOption) (fid : Nat)
    (buf : List Nat) (h1 : env.ctxDoneAtStart = false) (h2 : env.navigateErr = none)
    (h3 : env.frameTree = Except.ok fid) (h4 : env.setContentErr fid "" = none)
    (h5 : env.loadEventFires = true) (h6 : env.printResult = Except.ok buf)
    (h7 : buf ≠ []) :
    (ConvertHtmlToPdf env "" opts).outcome = Outcome.ret ⟨some buf, none⟩ ∧ buf ≠ [] := by
  refine ⟨?_, h7⟩
  rw [convert_outcome_eq]
  simp [runConversion, h1, h2, h3, h4, h5, h6]

/-- Witness for C9 at the fully successful environment. -/
theorem empty_html_not_rejected_witness :
    (ConvertHtmlToPdf envOk "" []).outcome = Outcome.ret ⟨some pdfBytesOk, none⟩ ∧
    pdfBytesOk ≠ [] :=
  empty_html_not_rejected envOk [] 1 pdfBytesOk rfl rfl rfl rfl rfl rfl (by decide)

/-- C10: if the read fails for any reason, `ConvertHtmlFileToPdf` returns an
error (with nil bytes) immediately without invoking the conversion: its
protocol trace and diagnostic output are empty, and the result does not
depend on the option list (no option is applied). -/
theorem read_failure_short_circuits (fs : String → ReadResult) (env : CdpEnv)
    (p : String) (opts : List ConvOption) (h : ∀ s, fs p ≠ ReadResult.ok s) :
    (∃ e, (ConvertHtmlFileToPdf fs env p opts).outcome = Outcome.ret ⟨none, some e⟩) ∧
    (ConvertHtmlFileToPdf fs env p opts).trace = [] ∧
    (ConvertHtmlFileToPdf fs env p opts).diag = [] ∧
    ConvertHtmlFileToPdf fs env p opts = ConvertHtmlFileToPdf fs env p [] := by
  unfold ConvertHtmlFileToPdf
  cases hr : fs p with
  | ok s => exact absurd hr (h s)
  | notExist => exact ⟨⟨_, rfl⟩, rfl, rfl, rfl⟩
  | otherErr e => exact ⟨⟨_, rfl⟩, rfl, rfl, rfl⟩

/-- Witness for C10 at the file system on which every path is missing. -/
theorem read_failure_short_circuits_witness :
    (∃ e, (ConvertHtmlFileToPdf fsMissing envOk "b.html" []).outcome =
      Outcome.ret ⟨none, some e⟩) ∧
    (ConvertHtmlFileToPdf fsMissing envOk "b.html" []).trace = [] ∧
    (ConvertHtmlFileToPdf fsMissing envOk "b.html" []).diag = [] ∧
    ConvertHtmlFileToPdf fsMissing envOk "b.html" [] =
      ConvertHtmlFileToPdf fsMissing envOk "b.html" [] :=
  read_failure_short_circuits fsMissing envOk "b.html" []
    (fun _ hs => ReadResult.noConfusion hs)

end Html2Pdf
